import Mathlib

/-!
Shallow embedding of the subscription-service repository
(`internal/models`, `internal/repository/repository.go`, the `handlers`
package), together with theorems settling the specification claims.

Modelling conventions:
* `uuid.UUID` values are abstracted as `Nat`.
* `time.Time` values are abstracted as `Int` (seconds); Go's
  `Add(30 * 24 * time.Hour)` becomes `+ 30 * 24 * 3600`.
* The PostgreSQL store is a `List Subscription`; SQL comparisons over the
  nullable `end_date` column follow SQL three-valued logic (`SqlB`), and a
  `WHERE` clause keeps a row only when the condition evaluates to true.
* Infrastructure failure is modelled by the store argument being
  `Except.error`; a pure computation over an `Except.ok` store cannot fail.
-/

namespace SubSvc

/-- The `models.Subscription` record: `EndDate` is the nullable `*time.Time`
column. -/
structure Subscription where
  ID : Nat
  ServiceName : String
  Price : Int
  UserID : Nat
  StartDate : Int
  EndDate : Option Int
deriving DecidableEq

/-- SQL three-valued truth values for conditions over nullable columns. -/
inductive SqlB where
  | tru
  | fls
  | unk
deriving DecidableEq

/-- SQL `AND` on three-valued logic. -/
def sqlAnd : SqlB → SqlB → SqlB
  | .fls, _ => .fls
  | _, .fls => .fls
  | .tru, .tru => .tru
  | _, _ => .unk

/-- SQL `a <= b` over nullable integer operands: any NULL operand makes the
comparison unknown. -/
def sqlLe : Option Int → Option Int → SqlB
  | some a, some b => if a ≤ b then .tru else .fls
  | _, _ => .unk

/-- SQL `a >= b` over nullable operands. -/
def sqlGe (a b : Option Int) : SqlB :=
  sqlLe b a

/-- The date condition of `GetTotalSubscriptionCost`
(repository.go lines 187-193): `start_date <= $date AND end_date >= $date`.
`start_date` and the query date are not nullable; `end_date` is. -/
def overlapCond (s : Subscription) (d : Int) : SqlB :=
  sqlAnd (sqlLe (some s.StartDate) (some d)) (sqlGe s.EndDate (some d))

/-- A row passes the `WHERE` clause iff the condition evaluates to true
(an unknown result excludes the row). -/
def rowIncluded (s : Subscription) (d : Int) : Bool :=
  overlapCond s d == .tru

/-- The full row predicate of `GetTotalSubscriptionCost`: the date condition,
plus `user_id = $uid` when `filterByUser`, plus `service_name = $name` when
the service-name argument is non-empty (repository.go lines 187-201). -/
def costPredicate (d : Int) (filterByUser : Bool) (userID : Nat)
    (serviceName : String) (s : Subscription) : Bool :=
  rowIncluded s d
    && (if filterByUser then s.UserID == userID else true)
    && (if serviceName == "" then true else s.ServiceName == serviceName)

/-- Function `GetTotalSubscriptionCost` (repository.go lines 179-220):
`SELECT COALESCE(SUM(price), 0)` over the rows matching `costPredicate`;
a store failure propagates as the error, and `COALESCE` turns the empty
sum into `0`. -/
def GetTotalSubscriptionCost (store : Except String (List Subscription))
    (d : Int) (filterByUser : Bool) (userID : Nat) (serviceName : String) :
    Except String Int :=
  store.map fun rows =>
    ((rows.filter (costPredicate d filterByUser userID serviceName)).map
      (fun s => s.Price)).sum

/-- Returns `true` exactly on `Except.error` results. -/
def isErr {α : Type} : Except String α → Bool
  | .error _ => true
  | .ok _ => false

/-- Function `GetByID` (repository.go lines 52-83): despite its name, the query is
`SELECT ... FROM subscriptions WHERE user_id = $key`; `QueryRow` yields the
first matching row, and scanning no row at all is the not-found error,
modelled as `none`. -/
def GetByID (rows : List Subscription) (key : Nat) : Option Subscription :=
  rows.find? fun s => s.UserID == key

/-- The `SET` clause of `Update` (repository.go lines 87-91) applied to one
row: `service_name`, `price`, `start_date` and `end_date` are overwritten
from the argument subscription; no other column is set. -/
def updatedRow (sub r : Subscription) : Subscription :=
  { r with
    ServiceName := sub.ServiceName
    Price := sub.Price
    StartDate := sub.StartDate
    EndDate := sub.EndDate }

/-- Effect of the `UPDATE ... WHERE user_id = $uid` statement on the table:
every row whose `user_id` matches gets the `SET` clause applied. -/
def updateRows (rows : List Subscription) (sub : Subscription) :
    List Subscription :=
  rows.map fun r => if r.UserID == sub.UserID then updatedRow sub r else r

/-- The rows-affected check shared verbatim by `Update` (lines 107-110) and
`Delete` (lines 134-137): any count other than exactly 1 yields the same
generic error `fmt.Errorf("no rows affected")`. -/
def rowsAffectedCheck (n : Nat) : Except String Unit :=
  if n ≠ 1 then .error "no rows affected" else .ok ()

/-- Function `Update` (repository.go lines 86-114): executes the `UPDATE` keyed by
`user_id`, then returns the rows-affected check on the number of rows the
statement touched.  The statement's effect on the table is not rolled back
when the check fails. -/
def Update (rows : List Subscription) (sub : Subscription) :
    List Subscription × Except String Unit :=
  (updateRows rows sub,
   rowsAffectedCheck (rows.countP fun r => r.UserID == sub.UserID))

/-- Function `Delete` (repository.go lines 117-141): `DELETE FROM subscriptions WHERE
user_id = $key`, followed by the same rows-affected check. -/
def Delete (rows : List Subscription) (key : Nat) :
    List Subscription × Except String Unit :=
  (rows.filter fun r => !(r.UserID == key),
   rowsAffectedCheck (rows.countP fun r => r.UserID == key))

/-- ASCII lowercasing of a string, character by character. -/
def strLower (s : String) : String :=
  String.mk (s.data.map Char.toLower)

/-- Predicate `startsWithSeq p l` holds when `p` is an initial segment of `l`. -/
def startsWithSeq : List Char → List Char → Bool
  | [], _ => true
  | _ :: _, [] => false
  | p :: ps, c :: cs => p == c && startsWithSeq ps cs

/-- Predicate `containsSeq p l` holds when `p` occurs contiguously inside `l`. -/
def containsSeq (p : List Char) : List Char → Bool
  | [] => startsWithSeq p []
  | c :: cs => startsWithSeq p (c :: cs) || containsSeq p cs

/-- The spec's service-name match: the filter value occurs as a
case-insensitive substring of the stored service name.  This definition
follows the spec's words and exists only to be compared with the equality
filter the repository code actually applies. -/
def ciSubstringMatch (pat s : String) : Bool :=
  containsSeq (strLower pat).toList (strLower s).toList

/-- The `models.SubscriptionFilters` record, with the optional query-interval
bounds and the optional user filter. -/
structure SubscriptionFilters where
  UserID : Option Nat
  ServiceName : String
  StartDate : Option Int
  EndDate : Option Int

/-- Modelled from the spec: the interval-overlap rule
`s.start <= q.end AND (s.end IS NULL OR s.end >= q.start)`, with an absent
query bound imposing no constraint. -/
def specOverlap (f : SubscriptionFilters) (s : Subscription) : Bool :=
  (match f.EndDate with
   | none => true
   | some qe => decide (s.StartDate ≤ qe)) &&
  (match s.EndDate, f.StartDate with
   | none, _ => true
   | _, none => true
   | some se, some qs => decide (qs ≤ se))

/-- Modelled from the spec: the summarize predicate — the overlap rule plus
the optional filters, logically ANDed when present (`user_id` exact match,
`service_name` case-insensitive substring match). -/
def summaryPredicate (f : SubscriptionFilters) (s : Subscription) : Bool :=
  specOverlap f s
    && (match f.UserID with
        | none => true
        | some u => s.UserID == u)
    && (if f.ServiceName == "" then true
        else ciSubstringMatch f.ServiceName s.ServiceName)

/-- Modelled from the spec: `GetSubscriptionsSummary`, the summarize
operation the handlers call on the repository (its implementation is not
among the source files): it sums `price` and counts the rows satisfying the
filter predicate, yielding `(0, 0)` on an empty match set; only a store
failure propagates as an error. -/
def GetSubscriptionsSummary (store : Except String (List Subscription))
    (f : SubscriptionFilters) : Except String (Int × Nat) :=
  store.map fun rows =>
    let m := rows.filter (summaryPredicate f)
    ((m.map fun s => s.Price).sum, m.length)

/-- The decoded JSON body of the create endpoint (`handlers`): the dates are
the raw strings in the compact month-year format, `EndDate` optional. -/
structure CreateInput where
  ServiceName : String
  Price : Int
  UserID : String
  StartDate : String
  EndDate : Option String

/-- Handler `CreateSubscription` (handlers): field validation in source order —
required fields and positive price, then `uuid.Parse` on `user_id`, then
date parsing — and construction of the stored record, with `end_date`
defaulting to `startTime.Add(30 * 24 * time.Hour)` when the input omits it
or supplies the empty string.  The date and UUID parsers are passed in as
functions (`none` models a parse failure); `newID` models `uuid.New()`. -/
def CreateSubscription (parseMonthYear : String → Option Int)
    (parseUUID : String → Option Nat) (newID : Nat) (input : CreateInput) :
    Except String Subscription :=
  if input.ServiceName = "" ∨ input.UserID = "" ∨ input.StartDate = "" ∨
      input.Price ≤ 0 then
    .error "Missing required fields"
  else
    match parseUUID input.UserID with
    | none => .error "Invalid user_id format"
    | some userUUID =>
      match parseMonthYear input.StartDate with
      | none => .error "Invalid start_date format"
      | some startTime =>
        match input.EndDate with
        | some es =>
          if es ≠ "" then
            match parseMonthYear es with
            | none => .error "Invalid end_date format"
            | some endTime =>
              .ok { ID := newID, ServiceName := input.ServiceName,
                    Price := input.Price, UserID := userUUID,
                    StartDate := startTime, EndDate := some endTime }
          else
            .ok { ID := newID, ServiceName := input.ServiceName,
                  Price := input.Price, UserID := userUUID,
                  StartDate := startTime,
                  EndDate := some (startTime + 30 * 24 * 3600) }
        | none =>
          .ok { ID := newID, ServiceName := input.ServiceName,
                Price := input.Price, UserID := userUUID,
                StartDate := startTime,
                EndDate := some (startTime + 30 * 24 * 3600) }

end SubSvc

namespace SubSvc

/-- Claim C1 (counterexample): a subscription with `end_date = NULL` and
`start_date = 0` is NOT included by the overlap test at the reference date
`d = 5`, even though `d >= start_date`; the claim asserts it would be. -/
theorem c1_counterexample :
    (Subscription.mk 1 "Netflix" 10 2 0 none).EndDate = none ∧
    (Subscription.mk 1 "Netflix" 10 2 0 none).StartDate ≤ 5 ∧
    rowIncluded (Subscription.mk 1 "Netflix" 10 2 0 none) 5 = false :=
  ⟨rfl, by decide, rfl⟩

/-- Claim C1 (amended): for every subscription with a null `end_date`, the
overlap test of `GetTotalSubscriptionCost` excludes the subscription at every
reference date: the SQL comparison `end_date >= $date` is unknown on NULL, so
the `WHERE` clause never holds. -/
theorem c1_null_end_excluded (s : Subscription) (d : Int)
    (h : s.EndDate = none) : rowIncluded s d = false := by
  simp only [rowIncluded, overlapCond, sqlGe, h, sqlLe]
  rcases le_or_lt s.StartDate d with h1 | h1
  · simp [sqlAnd, if_pos h1]
  · simp [sqlAnd, if_neg (not_le.mpr h1)]

/-- Witness for `c1_null_end_excluded` at a concrete subscription and date. -/
theorem c1_null_end_excluded_witness :
    rowIncluded (Subscription.mk 1 "Netflix" 10 2 0 none) 5 = false :=
  c1_null_end_excluded (Subscription.mk 1 "Netflix" 10 2 0 none) 5 rfl

/-- Claim C3 (counterexample): a stored row with `id = 1` and `user_id = 2`
is not found by `GetByID` under its own id `1`, but is found under the
user id `2`: the point lookup keys on `user_id`, not on the subscription's
own `id` as the claim states. -/
theorem c3_counterexample :
    (Subscription.mk 1 "Netflix" 10 2 0 none).ID = 1 ∧
    GetByID [Subscription.mk 1 "Netflix" 10 2 0 none] 1 = none ∧
    GetByID [Subscription.mk 1 "Netflix" 10 2 0 none] 2 =
      some (Subscription.mk 1 "Netflix" 10 2 0 none) :=
  ⟨rfl, rfl, rfl⟩

/-- Claim C3 (amended): the point operations `GetByID`, `Update` and `Delete`
all identify the target rows by `user_id`: a lookup comes back empty iff no
stored row carries that `user_id` (so it finds a row iff some row carries
it), and any row found carries it; `Delete` keeps exactly the rows with a
different `user_id`; `Update` preserves the table's length and rewrites,
position by position, exactly the rows whose `user_id` matches — applying
the `SET` clause to those and leaving every other row unchanged.  The
subscription's own `id` plays no role in row selection. -/
theorem c3_point_ops_key_by_user_id (rows : List Subscription) (key : Nat)
    (sub s : Subscription) (hkey : sub.UserID = key) :
    (GetByID rows key = none ↔ ∀ t ∈ rows, t.UserID ≠ key) ∧
    (∀ t, GetByID rows key = some t → t.UserID = key) ∧
    (s ∈ (Delete rows key).1 ↔ s ∈ rows ∧ s.UserID ≠ key) ∧
    ((Update rows sub).1.length = rows.length ∧
     ∀ (i : Nat) (h1 : i < rows.length)
       (h2 : i < (Update rows sub).1.length),
       (Update rows sub).1[i] =
         if rows[i].UserID = key then updatedRow sub rows[i]
         else rows[i]) := by
  refine ⟨?_, ?_, ?_, ?_, ?_⟩
  · simp [GetByID, List.find?_eq_none]
  · intro t ht
    have := List.find?_some ht
    simpa using this
  · simp [Delete, List.mem_filter]
  · simp [Update, updateRows]
  · intro i h1 h2
    simp only [Update, updateRows, List.getElem_map]
    by_cases hc : rows[i].UserID = key
    · simp [hkey, hc]
    · simp [hkey, hc]

/-- Witness for `c3_point_ops_key_by_user_id` on a one-row store: the row is
invisible under a foreign `user_id`, found under its own `user_id`, and an
update keyed on a foreign `user_id` keeps the table length. -/
theorem c3_point_ops_key_by_user_id_witness :
    GetByID [Subscription.mk 1 "A" 5 2 0 none] 3 = none ∧
    (Subscription.mk 1 "A" 5 2 0 none).UserID = 2 ∧
    (Update [Subscription.mk 1 "A" 5 2 0 none]
        (Subscription.mk 9 "B" 6 3 0 none)).1.length =
      [Subscription.mk 1 "A" 5 2 0 none].length :=
  ⟨(c3_point_ops_key_by_user_id [Subscription.mk 1 "A" 5 2 0 none] 3
      (Subscription.mk 9 "B" 6 3 0 none) (Subscription.mk 1 "A" 5 2 0 none)
      rfl).1.mpr (by decide),
   (c3_point_ops_key_by_user_id [Subscription.mk 1 "A" 5 2 0 none] 2
      (Subscription.mk 9 "B" 6 2 0 none) (Subscription.mk 1 "A" 5 2 0 none)
      rfl).2.1 (Subscription.mk 1 "A" 5 2 0 none) rfl,
   (c3_point_ops_key_by_user_id [Subscription.mk 1 "A" 5 2 0 none] 3
      (Subscription.mk 9 "B" 6 3 0 none) (Subscription.mk 1 "A" 5 2 0 none)
      rfl).2.2.2.1⟩

/-- Claim C4 (counterexample): deleting a `user_id` carried by two stored
rows produces exactly the same error value as deleting a `user_id` carried
by no row at all — the generic `"no rows affected"` — so the
more-than-one-row case is NOT distinguishable from the not-found case. -/
theorem c4_counterexample :
    (Delete [Subscription.mk 1 "A" 5 2 0 none,
             Subscription.mk 3 "B" 7 2 0 none] 2).2 =
      (Delete ([] : List Subscription) 2).2 ∧
    (Delete [Subscription.mk 1 "A" 5 2 0 none,
             Subscription.mk 3 "B" 7 2 0 none] 2).2 =
      Except.error "no rows affected" :=
  ⟨rfl, rfl⟩

/-- Claim C4 (amended): `Update` and `Delete` succeed iff exactly one row was
affected, and return an error — never a silent success — on an identifier
matching no stored row; but every affected-row count other than 1 (zero and
more-than-one alike) produces the one generic error `"no rows affected"`,
with no distinguishable not-found versus consistency-error cases. -/
theorem c4_rows_affected_same_error (rows : List Subscription)
    (sub : Subscription) (key : Nat) (n : Nat) :
    (rowsAffectedCheck n = .ok () ↔ n = 1) ∧
    (n ≠ 1 → rowsAffectedCheck n = .error "no rows affected") ∧
    ((∀ t ∈ rows, t.UserID ≠ sub.UserID) →
      (Update rows sub).2 = .error "no rows affected") ∧
    ((∀ t ∈ rows, t.UserID ≠ key) →
      (Delete rows key).2 = .error "no rows affected") := by
  refine ⟨?_, ?_, ?_, ?_⟩
  · rcases eq_or_ne n 1 with h | h <;> simp [rowsAffectedCheck, h]
  · intro h
    simp [rowsAffectedCheck, h]
  · intro h
    have h0 : rows.countP (fun r => r.UserID == sub.UserID) = 0 :=
      List.countP_eq_zero.mpr (by intro a ha; simpa using h a ha)
    simp [Update, h0, rowsAffectedCheck]
  · intro h
    have h0 : rows.countP (fun r => r.UserID == key) = 0 :=
      List.countP_eq_zero.mpr (by intro a ha; simpa using h a ha)
    simp [Delete, h0, rowsAffectedCheck]

/-- Witness for `c4_rows_affected_same_error` on the empty store. -/
theorem c4_rows_affected_same_error_witness :
    rowsAffectedCheck 0 = Except.error "no rows affected" ∧
    (Delete ([] : List Subscription) 7).2 = Except.error "no rows affected" :=
  ⟨(c4_rows_affected_same_error [] (Subscription.mk 1 "A" 5 2 0 none) 7
      0).2.1 (by decide),
   (c4_rows_affected_same_error [] (Subscription.mk 1 "A" 5 2 0 none) 7
      0).2.2.2 (by simp)⟩

/-- Claim C2: on a reachable store, a filter combination matching zero rows
makes `GetTotalSubscriptionCost` return 0 and the summarize operation return
`(0, 0)`, neither with an error; a cost query on a reachable store never
errors, and a store failure propagates as the error for both operations. -/
theorem c2_zero_match_returns_zero (rows rows2 : List Subscription)
    (d : Int) (fbu : Bool) (uid : Nat) (sname : String)
    (f : SubscriptionFilters) (e : String) :
    (rows.filter (costPredicate d fbu uid sname) = [] →
      GetTotalSubscriptionCost (.ok rows) d fbu uid sname = .ok 0) ∧
    (rows2.filter (summaryPredicate f) = [] →
      GetSubscriptionsSummary (.ok rows2) f = .ok (0, 0)) ∧
    isErr (GetTotalSubscriptionCost (.ok rows) d fbu uid sname) = false ∧
    GetTotalSubscriptionCost (.error e) d fbu uid sname = .error e ∧
    GetSubscriptionsSummary (.error e) f = .error e := by
  refine ⟨?_, ?_, ?_, rfl, rfl⟩
  · intro h
    simp [GetTotalSubscriptionCost, Except.map, h]
  · intro h
    simp [GetSubscriptionsSummary, Except.map, h]
  · simp [GetTotalSubscriptionCost, Except.map, isErr]

/-- Witness for `c2_zero_match_returns_zero` on the empty store. -/
theorem c2_zero_match_returns_zero_witness :
    GetTotalSubscriptionCost (.ok []) 0 false 0 "" = .ok 0 ∧
    GetSubscriptionsSummary (.ok [])
      (SubscriptionFilters.mk none "" none none) = .ok (0, 0) :=
  ⟨(c2_zero_match_returns_zero [] [] 0 false 0 ""
      (SubscriptionFilters.mk none "" none none) "down").1 rfl,
   (c2_zero_match_returns_zero [] [] 0 false 0 ""
      (SubscriptionFilters.mk none "" none none) "down").2.1 rfl⟩

/-- Claim C5: the aggregation predicate is the conjunction of the present
filters: with no optional filter the selection is exactly the rows passing
the date-overlap test, and the selection under both optional filters is the
intersection of the selections under each filter alone. -/
theorem c5_filters_compose_as_intersection (rows : List Subscription)
    (d : Int) (uid : Nat) (sname : String) (s : Subscription) :
    rows.filter (costPredicate d false uid "") =
      rows.filter (fun t => rowIncluded t d) ∧
    (s ∈ rows.filter (costPredicate d true uid sname) ↔
      s ∈ rows.filter (costPredicate d true uid "") ∧
      s ∈ rows.filter (costPredicate d false uid sname)) := by
  constructor
  · apply List.filter_congr
    intro t _
    simp [costPredicate]
  · simp only [List.mem_filter, costPredicate, Bool.and_eq_true]
    constructor
    · rintro ⟨hs, ⟨hd, hu⟩, hsvc⟩
      exact ⟨⟨hs, ⟨hd, hu⟩, by simp⟩, hs, ⟨hd, by simp⟩, hsvc⟩
    · rintro ⟨⟨hs, ⟨hd, hu⟩, -⟩, -, -, hsvc⟩
      exact ⟨hs, ⟨hd, hu⟩, hsvc⟩

/-- Claim C6 (counterexample): with the filter value `"net"`, a stored
subscription named `"Netflix"` that is active on the reference date is
nevertheless excluded by the aggregation predicate, even though `"net"` is a
case-insensitive substring of `"Netflix"`: the code filters by exact
equality, not substring match. -/
theorem c6_counterexample :
    ciSubstringMatch "net" "Netflix" = true ∧
    rowIncluded (Subscription.mk 1 "Netflix" 10 2 0 (some 10)) 5 = true ∧
    costPredicate 5 false 0 "net"
      (Subscription.mk 1 "Netflix" 10 2 0 (some 10)) = false := by
  refine ⟨?_, rfl, ?_⟩ <;> decide

/-- Claim C6 (amended): for every non-empty filter value, the service-name
clause of the aggregation predicate matches a subscription iff the stored
`service_name` equals the filter value exactly (case-sensitive equality). -/
theorem c6_service_name_exact_match (d : Int) (fbu : Bool) (uid : Nat)
    (v : String) (s : Subscription) (hv : v ≠ "") :
    costPredicate d fbu uid v s =
      (rowIncluded s d && (if fbu then s.UserID == uid else true)
        && (s.ServiceName == v)) := by
  have hb : (v == "") = false := by simpa using hv
  simp [costPredicate, hb]

/-- Witness for `c6_service_name_exact_match` at a concrete filter value. -/
theorem c6_service_name_exact_match_witness :
    costPredicate 5 false 0 "Netflix"
        (Subscription.mk 1 "Netflix" 10 2 0 (some 10)) =
      (rowIncluded (Subscription.mk 1 "Netflix" 10 2 0 (some 10)) 5 &&
        (if false then
          (Subscription.mk 1 "Netflix" 10 2 0 (some 10)).UserID == 0
         else true) &&
        ((Subscription.mk 1 "Netflix" 10 2 0 (some 10)).ServiceName ==
          "Netflix")) :=
  c6_service_name_exact_match 5 false 0 "Netflix"
    (Subscription.mk 1 "Netflix" 10 2 0 (some 10)) (by decide)

/-- Claim C7: on a successful creation whose input omits `end_date` (or
supplies the empty string), the created subscription's `end_date` is
`start_date + 30 days` (Go's `startTime.Add(30 * 24 * time.Hour)`, i.e.
`+ 30 * 24 * 3600` seconds); when a parseable `end_date` is supplied, it is
stored as given. -/
theorem c7_default_end_date (pMY : String → Option Int)
    (pU : String → Option Nat) (newID : Nat) (input : CreateInput)
    (st : Int) (sub : Subscription)
    (hstart : pMY input.StartDate = some st) :
    ((input.EndDate = none ∨ input.EndDate = some "") →
      CreateSubscription pMY pU newID input = .ok sub →
      sub.StartDate = st ∧ sub.EndDate = some (st + 30 * 24 * 3600)) ∧
    (∀ es e, input.EndDate = some es → es ≠ "" → pMY es = some e →
      CreateSubscription pMY pU newID input = .ok sub →
      sub.EndDate = some e) := by
  constructor
  · intro hend hok
    unfold CreateSubscription at hok
    split at hok
    · cases hok
    · cases hu : pU input.UserID with
      | none =>
        simp only [hu] at hok
        cases hok
      | some uu =>
        simp only [hu, hstart] at hok
        rcases hend with h | h
        · simp only [h] at hok
          cases hok
          exact ⟨rfl, rfl⟩
        · simp only [h] at hok
          rw [if_neg (by simp)] at hok
          cases hok
          exact ⟨rfl, rfl⟩
  · intro es e hes hne hpe hok
    unfold CreateSubscription at hok
    split at hok
    · cases hok
    · cases hu : pU input.UserID with
      | none =>
        simp only [hu] at hok
        cases hok
      | some uu =>
        simp only [hu, hstart, hes] at hok
        rw [if_pos hne] at hok
        simp only [hpe] at hok
        cases hok
        rfl

/-- Witness for `c7_default_end_date`: a concrete valid input omitting
`end_date` yields a subscription ending 30 days after its start. -/
theorem c7_default_end_date_witness :
    CreateSubscription (fun s => if s = "07-2025" then some 100 else none)
        (fun s => if s = "u1" then some 7 else none) 42
        (CreateInput.mk "Netflix" 10 "u1" "07-2025" none) =
      Except.ok (Subscription.mk 42 "Netflix" 10 7 100 (some 2592100)) ∧
    (Subscription.mk 42 "Netflix" 10 7 100 (some 2592100)).StartDate = 100 ∧
    (Subscription.mk 42 "Netflix" 10 7 100 (some 2592100)).EndDate =
      some (100 + 30 * 24 * 3600) :=
  ⟨rfl,
   (c7_default_end_date (fun s => if s = "07-2025" then some 100 else none)
      (fun s => if s = "u1" then some 7 else none) 42
      (CreateInput.mk "Netflix" 10 "u1" "07-2025" none) 100
      (Subscription.mk 42 "Netflix" 10 7 100 (some 2592100)) rfl).1
     (Or.inl rfl) rfl⟩

/-- Claim C8 (counterexample): an input satisfying every condition on the
claim's list — non-empty service name, valid user id, parseable start date,
positive price — but carrying an unparseable `end_date` still produces a
validation error instead of an insertion, so the claim's enumeration is not
exhaustive. -/
theorem c8_counterexample :
    CreateSubscription (fun s => if s = "07-2025" then some 100 else none)
        (fun s => if s = "u1" then some 7 else none) 42
        (CreateInput.mk "Netflix" 10 "u1" "07-2025" (some "bad")) =
      Except.error "Invalid end_date format" ∧
    ¬("Netflix" = "" ∨ "u1" = "" ∨ "07-2025" = "" ∨ (10 : Int) ≤ 0 ∨
      (fun s => if s = "u1" then some 7 else none) "u1" = none ∨
      (fun s => if s = "07-2025" then some 100 else none) "07-2025" =
        none) := by
  refine ⟨rfl, ?_⟩
  decide

/-- Claim C8 (amended): `CreateSubscription` returns a validation error (and
creates nothing) iff the input is malformed: service name empty, user id
empty or unparseable as a UUID, start date empty or unparseable, price not
positive, or a supplied non-empty `end_date` that does not parse; otherwise
it builds and returns the subscription. -/
theorem c8_validation_error_iff (pMY : String → Option Int)
    (pU : String → Option Nat) (newID : Nat) (input : CreateInput) :
    isErr (CreateSubscription pMY pU newID input) = true ↔
      (input.ServiceName = "" ∨ input.UserID = "" ∨ input.StartDate = "" ∨
       input.Price ≤ 0 ∨ pU input.UserID = none ∨
       pMY input.StartDate = none ∨
       (∃ es, input.EndDate = some es ∧ es ≠ "" ∧ pMY es = none)) := by
  unfold CreateSubscription
  split
  next h =>
    exact iff_of_true rfl (by tauto)
  next h =>
    push_neg at h
    obtain ⟨h1, h2, h3, h4⟩ := h
    cases hu : pU input.UserID with
    | none =>
      exact iff_of_true rfl
        (Or.inr (Or.inr (Or.inr (Or.inr (Or.inl rfl)))))
    | some uu =>
      cases hs : pMY input.StartDate with
      | none =>
        exact iff_of_true rfl
          (Or.inr (Or.inr (Or.inr (Or.inr (Or.inr (Or.inl rfl))))))
      | some st =>
        cases he : input.EndDate with
        | none =>
          refine iff_of_false (by simp [isErr]) ?_
          push_neg
          refine ⟨h1, h2, h3, h4, by simp, by simp, ?_⟩
          exact fun es2 hes2 => Option.noConfusion hes2
        | some es =>
          dsimp only
          rcases eq_or_ne es "" with rfl | hne
          · rw [if_neg (by simp)]
            refine iff_of_false (by simp [isErr]) ?_
            push_neg
            refine ⟨h1, h2, h3, h4, by simp, by simp, ?_⟩
            intro es2 hes2 hne2
            cases hes2
            exact absurd rfl hne2
          · rw [if_pos hne]
            cases hpe : pMY es with
            | none =>
              exact iff_of_true rfl
                (Or.inr (Or.inr (Or.inr (Or.inr (Or.inr (Or.inr
                  ⟨es, rfl, hne, hpe⟩))))))
            | some et =>
              refine iff_of_false (by simp [isErr]) ?_
              push_neg
              refine ⟨h1, h2, h3, h4, by simp, by simp, ?_⟩
              intro es2 hes2 hne2
              cases hes2
              simp [hpe]

/-- Claim C9: every subscription returned by a successful
`CreateSubscription` carries a non-null `end_date` — either the parsed
supplied one or the 30-day default — so the create interface can never
produce an open-ended (`end_date = null`) record. -/
theorem c9_created_end_date_present (pMY : String → Option Int)
    (pU : String → Option Nat) (newID : Nat) (input : CreateInput)
    (sub : Subscription)
    (h : CreateSubscription pMY pU newID input = .ok sub) :
    sub.EndDate.isSome = true := by
  unfold CreateSubscription at h
  split at h
  · cases h
  · cases hu : pU input.UserID with
    | none =>
      simp only [hu] at h
      cases h
    | some uu =>
      cases hs : pMY input.StartDate with
      | none =>
        simp only [hu, hs] at h
        cases h
      | some st =>
        cases he : input.EndDate with
        | none =>
          simp only [hu, hs, he] at h
          cases h
          rfl
        | some es =>
          simp only [hu, hs, he] at h
          rcases eq_or_ne es "" with rfl | hne
          · rw [if_neg (by simp)] at h
            cases h
            rfl
          · rw [if_pos hne] at h
            cases hpe : pMY es with
            | none =>
              simp only [hpe] at h
              cases h
            | some et =>
              simp only [hpe] at h
              cases h
              rfl

/-- Witness for `c9_created_end_date_present` at a concrete creation with a
supplied `end_date`. -/
theorem c9_created_end_date_present_witness :
    CreateSubscription
        (fun s => if s = "07-2025" then some 100 else
          if s = "08-2025" then some 200 else none)
        (fun s => if s = "u1" then some 7 else none) 42
        (CreateInput.mk "Netflix" 10 "u1" "07-2025" (some "08-2025")) =
      Except.ok (Subscription.mk 42 "Netflix" 10 7 100 (some 200)) ∧
    (Subscription.mk 42 "Netflix" 10 7 100 (some 200)).EndDate.isSome =
      true :=
  ⟨rfl,
   c9_created_end_date_present
     (fun s => if s = "07-2025" then some 100 else
       if s = "08-2025" then some 200 else none)
     (fun s => if s = "u1" then some 7 else none) 42
     (CreateInput.mk "Netflix" 10 "u1" "07-2025" (some "08-2025"))
     (Subscription.mk 42 "Netflix" 10 7 100 (some 200)) rfl⟩

/-- Claim C10: the `SET` clause of `Update` touches only `service_name`,
`price`, `start_date` and `end_date`: the `id` and `user_id` columns of
every stored row are unchanged by the statement. -/
theorem c10_update_preserves_id_and_user_id (rows : List Subscription)
    (sub : Subscription) :
    ((Update rows sub).1).map (fun r => (r.ID, r.UserID)) =
      rows.map (fun r => (r.ID, r.UserID)) := by
  simp only [Update, updateRows, List.map_map]
  apply List.map_congr_left
  intro r _
  cases h : (r.UserID == sub.UserID) <;> simp [h, updatedRow, Function.comp]

end SubSvc
